import Mathlib

/-!
Shallow embedding of `src/examples/ex07.rs` (hexagonal_lite): a domain
`Order`, three port contracts (`OrderRepository`, `PaymentGateway`,
`Sender`), the generic application-service orchestrator `OrderService`
with its `place_order` / `get_order` operations, and the concrete
adapters (in-memory set and the simulated external set).

Embedding conventions:
* Rust `u32` values are `Nat`; arithmetic that can overflow in the
  source (`self.next_id += 1`, the `u32` sum of item prices) is taken
  modulo `2^32`, i.e. the release-build wrapping semantics.  (A debug
  build would trap instead of wrapping; the embedding commits to the
  wrapping semantics.)
* `Result<T, OrderError>` is `Except OrderError T`.
* `&mut self` methods thread the receiver state explicitly and return
  the updated state; `&self` methods return the state unchanged.
* Port invocations are recorded in an event trace so that claims about
  which ports run, how often, and in which order are statable.
* `println!` calls in the adapters write to stdout only; they are not
  modelled.
* `HashMap` is modelled as an association list where `insert` prepends
  the new binding and `get` returns the most recent binding for a key;
  this is observationally equivalent to `HashMap::insert` / `get` for
  the two operations the adapters use.
-/

namespace HexagonalLite

def u32Mod : Nat := 2 ^ 32

/-- `struct OrderId(pub u32)` - strongly typed order identifier. -/
structure OrderId where
  id : Nat
deriving DecidableEq, Repr

/-- `struct Money(pub u32)` - amount stored in cents. -/
structure Money where
  cents : Nat
deriving DecidableEq, Repr

/-- `struct LineItem { name: String, price: Money }`. -/
structure LineItem where
  name : String
  price : Money
deriving DecidableEq, Repr

/-- `struct Order { id: OrderId, items: Vec<LineItem>, total: Money }`. -/
structure Order where
  id : OrderId
  items : List LineItem
  total : Money
deriving DecidableEq, Repr

/-- `enum OrderError` - the four domain-level failure kinds. -/
inductive OrderError where
  | InvalidOrder
  | PaymentFailed
  | StorageFailed
  | NotificationFailed
deriving DecidableEq, Repr

/-- Rust `u32` addition as performed by `iter().map(..).sum::<u32>()`:
a left fold of wrapping addition (release-build semantics). -/
def u32add (a b : Nat) : Nat := (a + b) % u32Mod

/-- The `u32` sum of a list of (in-range) values, as `Sum for u32`
computes it: `fold(0, Add::add)` with wrapping addition. -/
def u32sum (l : List Nat) : Nat := l.foldl u32add 0

/-- `Order::new(id, items)`: fails with `InvalidOrder` on an empty item
list, otherwise computes `total` as the `u32` sum of the item prices. -/
def Order.new (id : OrderId) (items : List LineItem) : Except OrderError Order :=
  if items.isEmpty then
    .error .InvalidOrder
  else
    let total : Money := ⟨u32sum (items.map fun item => item.price.cents)⟩
    .ok { id := id, items := items, total := total }

/-- `trait OrderRepository` over a repository state type `ρ`:
`save` takes `&mut self` (it may mutate even when it fails, so it
returns the result together with the new state); `find` takes `&self`. -/
structure OrderRepository (ρ : Type) where
  save : ρ → Order → Except OrderError Unit × ρ
  find : ρ → OrderId → Except OrderError (Option Order)

/-- `trait PaymentGateway` over a gateway type `π`; `charge` takes `&self`. -/
structure PaymentGateway (π : Type) where
  charge : π → Money → Except OrderError Unit

/-- `trait Sender` over a sender type `σ`; `send` takes `&self`. -/
structure Sender (σ : Type) where
  send : σ → Order → Except OrderError Unit

/-- One observable port invocation made by the orchestrator. -/
inductive PortEvent where
  | charge (amount : Money)
  | save (order : Order)
  | send (order : Order)
  | find (id : OrderId)
deriving DecidableEq, Repr

/-- `struct OrderService` - the orchestrator state: the (mutably
borrowed) repository state, the two stateless-port values, and the
`u32` identifier counter. -/
structure OrderService (ρ π σ : Type) where
  repository : ρ
  payment : π
  sender : σ
  next_id : Nat

/-- `OrderService::new` - dependency injection; the counter is seeded at 1. -/
def OrderService.new {ρ π σ : Type} (repository : ρ) (payment : π) (sender : σ) :
    OrderService ρ π σ :=
  { repository := repository, payment := payment, sender := sender, next_id := 1 }

/-- `OrderService::place_order`: allocate the next identifier and
advance the counter (unconditionally, before validation; `+= 1` wraps
modulo `2^32`), construct the order, then charge, save and send in that
fixed order, propagating the first failure.  Returns the result, the
updated service state, and the trace of port invocations. -/
def OrderService.place_order {ρ π σ : Type}
    (R : OrderRepository ρ) (P : PaymentGateway π) (N : Sender σ)
    (s : OrderService ρ π σ) (items : List LineItem) :
    Except OrderError Order × OrderService ρ π σ × List PortEvent :=
  let order_id : OrderId := ⟨s.next_id⟩
  let s1 := { s with next_id := (s.next_id + 1) % u32Mod }
  match Order.new order_id items with
  | .error e => (.error e, s1, [])
  | .ok order =>
    match P.charge s1.payment order.total with
    | .error e => (.error e, s1, [.charge order.total])
    | .ok _ =>
      match R.save s1.repository order with
      | (.error e, repo) =>
        (.error e, { s1 with repository := repo }, [.charge order.total, .save order])
      | (.ok _, repo) =>
        let s2 := { s1 with repository := repo }
        match N.send s2.sender order with
        | .error e => (.error e, s2, [.charge order.total, .save order, .send order])
        | .ok _ => (.ok order, s2, [.charge order.total, .save order, .send order])

/-- `OrderService::get_order`: delegates directly to `Repository.find`.
The receiver is `&self`, so the threaded state is returned unchanged;
the trace records the single `find` invocation. -/
def OrderService.get_order {ρ π σ : Type}
    (R : OrderRepository ρ) (s : OrderService ρ π σ) (id : OrderId) :
    Except OrderError (Option Order) × OrderService ρ π σ × List PortEvent :=
  (R.find s.repository id, s, [.find id])

/-! ### In-memory adapters (`mod in_memory_adapters`) -/

/-- Association-list model of `HashMap<OrderId, Order>` lookups:
`get` observes the most recently inserted binding for a key. -/
def mapGet (m : List (OrderId × Order)) (k : OrderId) : Option Order :=
  (m.find? fun p => decide (p.1 = k)).map Prod.snd

/-- Association-list model of `HashMap::insert`: the new binding
shadows any older one (observationally equivalent for `get`). -/
def mapInsert (m : List (OrderId × Order)) (k : OrderId) (v : Order) :
    List (OrderId × Order) :=
  (k, v) :: m

/-- `struct InMemoryOrderRepository { orders: HashMap<OrderId, Order> }`. -/
structure InMemoryOrderRepository where
  orders : List (OrderId × Order)

/-- `InMemoryOrderRepository::new()` - an empty map. -/
def InMemoryOrderRepository.new : InMemoryOrderRepository := ⟨[]⟩

/-- `InMemoryOrderRepository::save`: inserts `order` under `order.id`
(the order is cloned into the map) and always returns `Ok(())`. -/
def InMemoryOrderRepository.save (r : InMemoryOrderRepository) (order : Order) :
    Except OrderError Unit × InMemoryOrderRepository :=
  (.ok (), ⟨mapInsert r.orders order.id order⟩)

/-- `InMemoryOrderRepository::find`: `Ok(self.orders.get(&id).cloned())`. -/
def InMemoryOrderRepository.find (r : InMemoryOrderRepository) (id : OrderId) :
    Except OrderError (Option Order) :=
  .ok (mapGet r.orders id)

/-- `struct MockPaymentGateway;` - field-free unit struct. -/
structure MockPaymentGateway where
deriving DecidableEq

/-- `MockPaymentGateway::charge`: prints and always returns `Ok(())`. -/
def MockPaymentGateway.charge (_ : MockPaymentGateway) (_ : Money) :
    Except OrderError Unit :=
  .ok ()

/-- `struct ConsoleSender;` - field-free unit struct. -/
structure ConsoleSender where
deriving DecidableEq

/-- `ConsoleSender::send`: prints and always returns `Ok(())`. -/
def ConsoleSender.send (_ : ConsoleSender) (_ : Order) : Except OrderError Unit :=
  .ok ()

/-- `impl OrderRepository for InMemoryOrderRepository`. -/
def inMemoryRepositoryPort : OrderRepository InMemoryOrderRepository :=
  ⟨InMemoryOrderRepository.save, InMemoryOrderRepository.find⟩

/-- `impl PaymentGateway for MockPaymentGateway`. -/
def mockPaymentPort : PaymentGateway MockPaymentGateway :=
  ⟨MockPaymentGateway.charge⟩

/-- `impl Sender for ConsoleSender`. -/
def consoleSenderPort : Sender ConsoleSender :=
  ⟨ConsoleSender.send⟩

/-! ### Simulated external adapters (`mod external_adapters`) -/

/-- `struct PostgresOrderRepository { simulated_db: HashMap<OrderId, Order> }`. -/
structure PostgresOrderRepository where
  simulated_db : List (OrderId × Order)

/-- `PostgresOrderRepository::new()` - an empty simulated database. -/
def PostgresOrderRepository.new : PostgresOrderRepository := ⟨[]⟩

/-- `PostgresOrderRepository::save`: simulated INSERT, always `Ok(())`. -/
def PostgresOrderRepository.save (r : PostgresOrderRepository) (order : Order) :
    Except OrderError Unit × PostgresOrderRepository :=
  (.ok (), ⟨mapInsert r.simulated_db order.id order⟩)

/-- `PostgresOrderRepository::find`: simulated SELECT. -/
def PostgresOrderRepository.find (r : PostgresOrderRepository) (id : OrderId) :
    Except OrderError (Option Order) :=
  .ok (mapGet r.simulated_db id)

/-- `struct StripePaymentGateway;` - field-free unit struct. -/
structure StripePaymentGateway where
deriving DecidableEq

/-- `StripePaymentGateway::charge`: prints and always returns `Ok(())`. -/
def StripePaymentGateway.charge (_ : StripePaymentGateway) (_ : Money) :
    Except OrderError Unit :=
  .ok ()

/-- `struct SendGridSender;` - field-free unit struct. -/
structure SendGridSender where
deriving DecidableEq

/-- `SendGridSender::send`: prints and always returns `Ok(())`. -/
def SendGridSender.send (_ : SendGridSender) (_ : Order) : Except OrderError Unit :=
  .ok ()

/-- `impl OrderRepository for PostgresOrderRepository`. -/
def postgresRepositoryPort : OrderRepository PostgresOrderRepository :=
  ⟨PostgresOrderRepository.save, PostgresOrderRepository.find⟩

/-- `impl PaymentGateway for StripePaymentGateway`. -/
def stripePaymentPort : PaymentGateway StripePaymentGateway :=
  ⟨StripePaymentGateway.charge⟩

/-- `impl Sender for SendGridSender`. -/
def sendGridSenderPort : Sender SendGridSender :=
  ⟨SendGridSender.send⟩

/-! ### Branch lemmas for `place_order` -/

/-- The service state with only the identifier counter advanced
(wrapping `u32` increment), as it is after the first two lines of
`place_order`. -/
def OrderService.advance {ρ π σ : Type} (s : OrderService ρ π σ) : OrderService ρ π σ :=
  { s with next_id := (s.next_id + 1) % u32Mod }

theorem place_order_invalid {ρ π σ : Type}
    (R : OrderRepository ρ) (P : PaymentGateway π) (N : Sender σ)
    (s : OrderService ρ π σ) :
    OrderService.place_order R P N s [] = (.error .InvalidOrder, s.advance, []) := by
  simp [OrderService.place_order, Order.new, OrderService.advance]

theorem place_order_charge_error {ρ π σ : Type}
    (R : OrderRepository ρ) (P : PaymentGateway π) (N : Sender σ)
    (s : OrderService ρ π σ) (items : List LineItem) (o : Order) (e : OrderError)
    (hnew : Order.new ⟨s.next_id⟩ items = .ok o)
    (hch : P.charge s.payment o.total = .error e) :
    OrderService.place_order R P N s items =
      (.error e, s.advance, [.charge o.total]) := by
  simp [OrderService.place_order, hnew, hch, OrderService.advance]

theorem place_order_save_error {ρ π σ : Type}
    (R : OrderRepository ρ) (P : PaymentGateway π) (N : Sender σ)
    (s : OrderService ρ π σ) (items : List LineItem) (o : Order) (e : OrderError)
    (r' : ρ)
    (hnew : Order.new ⟨s.next_id⟩ items = .ok o)
    (hch : P.charge s.payment o.total = .ok ())
    (hsv : R.save s.repository o = (.error e, r')) :
    OrderService.place_order R P N s items =
      (.error e, { s.advance with repository := r' },
        [.charge o.total, .save o]) := by
  simp [OrderService.place_order, hnew, hch, hsv, OrderService.advance]

theorem place_order_send_error {ρ π σ : Type}
    (R : OrderRepository ρ) (P : PaymentGateway π) (N : Sender σ)
    (s : OrderService ρ π σ) (items : List LineItem) (o : Order) (e : OrderError)
    (r' : ρ)
    (hnew : Order.new ⟨s.next_id⟩ items = .ok o)
    (hch : P.charge s.payment o.total = .ok ())
    (hsv : R.save s.repository o = (.ok (), r'))
    (hsd : N.send s.sender o = .error e) :
    OrderService.place_order R P N s items =
      (.error e, { s.advance with repository := r' },
        [.charge o.total, .save o, .send o]) := by
  simp [OrderService.place_order, hnew, hch, hsv, hsd, OrderService.advance]

theorem place_order_success {ρ π σ : Type}
    (R : OrderRepository ρ) (P : PaymentGateway π) (N : Sender σ)
    (s : OrderService ρ π σ) (items : List LineItem) (o : Order) (r' : ρ)
    (hnew : Order.new ⟨s.next_id⟩ items = .ok o)
    (hch : P.charge s.payment o.total = .ok ())
    (hsv : R.save s.repository o = (.ok (), r'))
    (hsd : N.send s.sender o = .ok ()) :
    OrderService.place_order R P N s items =
      (.ok o, { s.advance with repository := r' },
        [.charge o.total, .save o, .send o]) := by
  simp [OrderService.place_order, hnew, hch, hsv, hsd, OrderService.advance]

theorem place_order_next_id {ρ π σ : Type}
    (R : OrderRepository ρ) (P : PaymentGateway π) (N : Sender σ)
    (s : OrderService ρ π σ) (items : List LineItem) :
    ((OrderService.place_order R P N s items).2.1).next_id =
      (s.next_id + 1) % u32Mod := by
  rcases hnew : Order.new ⟨s.next_id⟩ items with e | o
  · simp [OrderService.place_order, hnew]
  · rcases hch : P.charge s.payment o.total with e | u
    · simp [OrderService.place_order, hnew, hch]
    · rcases hsv : R.save s.repository o with ⟨res, repo⟩
      rcases res with e | u'
      · simp [OrderService.place_order, hnew, hch, hsv]
      · rcases hsd : N.send s.sender o with e | u''
        · simp [OrderService.place_order, hnew, hch, hsv, hsd]
        · simp [OrderService.place_order, hnew, hch, hsv, hsd]

/-! ### Helper lemmas about the map model, `Order.new` and `u32` sums -/

theorem mapGet_insert_self (m : List (OrderId × Order)) (k : OrderId) (v : Order) :
    mapGet (mapInsert m k v) k = some v := by
  simp [mapGet, mapInsert, List.find?_cons_of_pos]

theorem mapGet_insert_ne (m : List (OrderId × Order)) (k k' : OrderId) (v : Order)
    (h : k' ≠ k) :
    mapGet (mapInsert m k v) k' = mapGet m k' := by
  have hk : ¬(k = k') := fun hkk => h hkk.symm
  simp [mapGet, mapInsert, List.find?_cons_of_neg, hk]

theorem Order.new_ok_fields (id : OrderId) (items : List LineItem) (o : Order)
    (h : Order.new id items = .ok o) :
    o.id = id ∧ o.items = items ∧
      o.total.cents = u32sum (items.map fun item => item.price.cents) := by
  cases items with
  | nil => simp [Order.new] at h
  | cons a l =>
    simp [Order.new] at h
    subst h
    exact ⟨rfl, rfl, rfl⟩

theorem foldl_u32add_mod (l : List Nat) :
    ∀ a : Nat, List.foldl u32add a l % u32Mod = (a + l.sum) % u32Mod := by
  induction l with
  | nil => intro a; simp
  | cons b t ih =>
    intro a
    rw [List.foldl_cons, ih, List.sum_cons]
    show ((a + b) % u32Mod + t.sum) % u32Mod = (a + (b + t.sum)) % u32Mod
    rw [Nat.mod_add_mod, Nat.add_assoc]

theorem foldl_u32add_lt (l : List Nat) :
    ∀ a : Nat, a < u32Mod → List.foldl u32add a l < u32Mod := by
  induction l with
  | nil => intro a ha; exact ha
  | cons b t ih =>
    intro a _
    rw [List.foldl_cons]
    exact ih _ (Nat.mod_lt _ (by norm_num [u32Mod]))

theorem u32sum_eq_sum_mod (l : List Nat) (hne : l ≠ []) :
    u32sum l = l.sum % u32Mod := by
  have hlt : u32sum l < u32Mod := by
    cases l with
    | nil => exact absurd rfl hne
    | cons b t =>
      show List.foldl u32add (u32add 0 b) t < u32Mod
      exact foldl_u32add_lt t _ (Nat.mod_lt _ (by norm_num [u32Mod]))
  calc u32sum l = u32sum l % u32Mod := (Nat.mod_eq_of_lt hlt).symm
    _ = (0 + l.sum) % u32Mod := foldl_u32add_mod l 0
    _ = l.sum % u32Mod := by rw [Nat.zero_add]

/-! ### Test fixtures and failing test doubles

The repository's own adapters never fail.  The spec (§8, scenario 3)
describes failure behaviour via test doubles configured to fail; the
two doubles below realise the port contracts' failure modes and are
used only to witness the failure-path theorems. -/

/-- Modelled from the spec: the payment test double of §8 scenario 3,
"configured to fail" - `charge` always reports `PaymentFailed`, the
payment port's contractual failure kind (§4.2). -/
structure FailingPaymentGateway where
deriving DecidableEq

def FailingPaymentGateway.charge (_ : FailingPaymentGateway) (_ : Money) :
    Except OrderError Unit :=
  .error .PaymentFailed

/-- Port view of the failing payment double. -/
def failingPaymentPort : PaymentGateway FailingPaymentGateway :=
  ⟨FailingPaymentGateway.charge⟩

/-- Modelled from the spec: a storage test double whose `save` fails
with `StorageFailed`, the repository port's contractual failure kind
(§4.2), leaving its (empty) state unchanged. -/
structure FailingSaveRepository where
deriving DecidableEq

def FailingSaveRepository.save (r : FailingSaveRepository) (_ : Order) :
    Except OrderError Unit × FailingSaveRepository :=
  (.error .StorageFailed, r)

def FailingSaveRepository.find (_ : FailingSaveRepository) (_ : OrderId) :
    Except OrderError (Option Order) :=
  .ok none

/-- Port view of the failing storage double. -/
def failingSaveRepositoryPort : OrderRepository FailingSaveRepository :=
  ⟨FailingSaveRepository.save, FailingSaveRepository.find⟩

/-- A concrete line item (the spec's §8 scenario 1 "Rust Book"). -/
def testItem : LineItem := ⟨"Rust Book", ⟨4999⟩⟩

/-- The order `place_order` builds from `[testItem]` with counter at 1. -/
def testOrder : Order := ⟨⟨1⟩, [testItem], ⟨4999⟩⟩

/-! ### Claim theorems -/

/-- C1: for every call to `place_order`: if `charge` fails (with the
payment port's failure kind `PaymentFailed`), the call returns
`PaymentFailed` and the trace is exactly one `charge` event (so `save`
and `send` are never invoked and `charge` ran once); if `charge`
succeeds and `save` fails (with `StorageFailed`), the call returns
`StorageFailed` and the trace is exactly `charge` then `save` (so
`send` is never invoked and `charge` ran exactly once); and in every
case the trace is an initial segment of charge → save → send, i.e. the
ports run in the fixed order payment, storage, notification. -/
theorem place_order_failure_protocol {ρ π σ : Type}
    (R : OrderRepository ρ) (P : PaymentGateway π) (N : Sender σ)
    (s : OrderService ρ π σ) (items : List LineItem) :
    (∀ o, Order.new ⟨s.next_id⟩ items = .ok o →
      P.charge s.payment o.total = .error .PaymentFailed →
      (OrderService.place_order R P N s items).1 = .error .PaymentFailed ∧
      (OrderService.place_order R P N s items).2.2 = [.charge o.total]) ∧
    (∀ o r', Order.new ⟨s.next_id⟩ items = .ok o →
      P.charge s.payment o.total = .ok () →
      R.save s.repository o = (.error .StorageFailed, r') →
      (OrderService.place_order R P N s items).1 = .error .StorageFailed ∧
      (OrderService.place_order R P N s items).2.2 =
        [.charge o.total, .save o]) ∧
    ((OrderService.place_order R P N s items).2.2 = [] ∨
      ∃ o, Order.new ⟨s.next_id⟩ items = .ok o ∧
        ((OrderService.place_order R P N s items).2.2 = [.charge o.total] ∨
         (OrderService.place_order R P N s items).2.2 =
           [.charge o.total, .save o] ∨
         (OrderService.place_order R P N s items).2.2 =
           [.charge o.total, .save o, .send o])) := by
  refine ⟨?_, ?_, ?_⟩
  · intro o hnew hch
    rw [place_order_charge_error R P N s items o _ hnew hch]
    exact ⟨rfl, rfl⟩
  · intro o r' hnew hch hsv
    rw [place_order_save_error R P N s items o _ r' hnew hch hsv]
    exact ⟨rfl, rfl⟩
  · rcases hnew : Order.new ⟨s.next_id⟩ items with e | o
    · left
      unfold OrderService.place_order
      simp [hnew]
    · right
      refine ⟨o, rfl, ?_⟩
      rcases hch : P.charge s.payment o.total with e | u
      · left
        rw [place_order_charge_error R P N s items o e hnew hch]
      · rcases hsv : R.save s.repository o with ⟨res, repo⟩
        rcases res with e | u'
        · right; left
          rw [place_order_save_error R P N s items o e repo hnew hch hsv]
        · rcases hsd : N.send s.sender o with e | u''
          · right; right
            rw [place_order_send_error R P N s items o e repo hnew hch hsv hsd]
          · right; right
            rw [place_order_success R P N s items o repo hnew hch hsv hsd]

/-- Witness for C1: with the failing payment double, `place_order` on
one item returns `PaymentFailed` after exactly one `charge` call. -/
theorem place_order_failure_protocol_witness :
    (Order.new ⟨(1 : Nat)⟩ [testItem] = .ok testOrder) ∧
    (failingPaymentPort.charge FailingPaymentGateway.mk testOrder.total =
      .error .PaymentFailed) ∧
    ((OrderService.place_order inMemoryRepositoryPort failingPaymentPort
        consoleSenderPort
        (OrderService.new InMemoryOrderRepository.new FailingPaymentGateway.mk
          ConsoleSender.mk) [testItem]).1 = .error .PaymentFailed ∧
      (OrderService.place_order inMemoryRepositoryPort failingPaymentPort
        consoleSenderPort
        (OrderService.new InMemoryOrderRepository.new FailingPaymentGateway.mk
          ConsoleSender.mk) [testItem]).2.2 = [.charge testOrder.total]) :=
  ⟨rfl, rfl,
    (place_order_failure_protocol inMemoryRepositoryPort failingPaymentPort
      consoleSenderPort
      (OrderService.new InMemoryOrderRepository.new FailingPaymentGateway.mk
        ConsoleSender.mk) [testItem]).1 testOrder rfl rfl⟩

/-- C2: `Order::new` fails, with `InvalidOrder`, exactly when the item
list is empty; otherwise it returns `Ok` with an order carrying the
given identifier and the given items; and when construction fails
inside `place_order`, no port is invoked (empty trace). -/
theorem order_new_validates (id : OrderId) (items : List LineItem) :
    (Order.new id items = .error .InvalidOrder ↔ items = []) ∧
    (∀ e, Order.new id items = .error e → e = .InvalidOrder) ∧
    (items ≠ [] → ∃ o, Order.new id items = .ok o ∧ o.id = id ∧ o.items = items) ∧
    (∀ {ρ π σ : Type} (R : OrderRepository ρ) (P : PaymentGateway π)
        (N : Sender σ) (s : OrderService ρ π σ) (e : OrderError),
      Order.new ⟨s.next_id⟩ items = .error e →
      (OrderService.place_order R P N s items).2.2 = []) := by
  refine ⟨?_, ?_, ?_, ?_⟩
  · cases items <;> simp [Order.new]
  · intro e he
    cases items with
    | nil =>
      simp [Order.new] at he
      exact he.symm
    | cons a l =>
      simp [Order.new] at he
  · intro hne
    cases items with
    | nil => exact absurd rfl hne
    | cons a l =>
      refine ⟨⟨id, a :: l, ⟨u32sum ((a :: l).map fun item => item.price.cents)⟩⟩,
        ?_, rfl, rfl⟩
      simp [Order.new]
  · intro ρ π σ R P N s e he
    unfold OrderService.place_order
    simp [he]

/-- Witness for C2: the empty list is rejected with `InvalidOrder` and
causes no port call; a one-item list is accepted with the given fields. -/
theorem order_new_validates_witness :
    ((Order.new ⟨(5 : Nat)⟩ [] = .error .InvalidOrder) ↔ ([] : List LineItem) = []) ∧
    (([testItem] : List LineItem) ≠ [] ∧
      ∃ o, Order.new ⟨(5 : Nat)⟩ [testItem] = .ok o ∧
        o.id = ⟨(5 : Nat)⟩ ∧ o.items = [testItem]) :=
  ⟨(order_new_validates ⟨5⟩ []).1,
    ⟨by simp, (order_new_validates ⟨5⟩ [testItem]).2.2.1 (by simp)⟩⟩

/-- C3 counterexample: the counter does not always advance by exactly
one.  With the in-memory composition and the counter at `u32::MAX`
(= 2^32 - 1, a state reached after 2^32 - 2 calls), a `place_order`
call wraps the counter to 0 instead of advancing it to 2^32. -/
theorem place_order_counter_wrap_counterexample :
    ((OrderService.place_order inMemoryRepositoryPort mockPaymentPort
        consoleSenderPort
        { repository := InMemoryOrderRepository.new,
          payment := MockPaymentGateway.mk, sender := ConsoleSender.mk,
          next_id := u32Mod - 1 } []).2.1).next_id ≠ (u32Mod - 1) + 1 := by
  rw [place_order_invalid]
  show (u32Mod - 1 + 1) % u32Mod ≠ u32Mod - 1 + 1
  norm_num [u32Mod]

/-- C3 (amended): for every `place_order` call the counter advances by
exactly one modulo 2^32 - that is, by exactly one whenever it has not
yet reached `u32::MAX` - and this holds whatever the outcome; the
identifier allocated to a successful call is the counter's value before
the call; the counter is seeded at 1 by the constructor; and a call
with an empty item list (validation failure) still consumes an
identifier. -/
theorem place_order_counter_contract {ρ π σ : Type}
    (R : OrderRepository ρ) (P : PaymentGateway π) (N : Sender σ)
    (s : OrderService ρ π σ) (items : List LineItem) :
    ((OrderService.place_order R P N s items).2.1).next_id =
      (s.next_id + 1) % u32Mod ∧
    (s.next_id + 1 < u32Mod →
      ((OrderService.place_order R P N s items).2.1).next_id = s.next_id + 1) ∧
    (∀ o, (OrderService.place_order R P N s items).1 = .ok o →
      o.id = ⟨s.next_id⟩) ∧
    (∀ (r : ρ) (p : π) (n : σ), (OrderService.new r p n).next_id = 1) ∧
    ((OrderService.place_order R P N s []).2.1).next_id =
      (s.next_id + 1) % u32Mod := by
  refine ⟨place_order_next_id R P N s items, ?_, ?_, fun r p n => rfl,
    place_order_next_id R P N s []⟩
  · intro hlt
    rw [place_order_next_id R P N s items]
    exact Nat.mod_eq_of_lt hlt
  · intro o h
    rcases hnew : Order.new ⟨s.next_id⟩ items with e | o'
    · rcases items with _ | ⟨a, l⟩
      · rw [place_order_invalid] at h
        exact absurd h (by simp)
      · simp [Order.new] at hnew
    · rcases hch : P.charge s.payment o'.total with e | u
      · rw [place_order_charge_error R P N s items o' e hnew hch] at h
        exact absurd h (by simp)
      · rcases hsv : R.save s.repository o' with ⟨res, repo⟩
        rcases res with e | u'
        · rw [place_order_save_error R P N s items o' e repo hnew hch hsv] at h
          exact absurd h (by simp)
        · rcases hsd : N.send s.sender o' with e | u''
          · rw [place_order_send_error R P N s items o' e repo hnew hch hsv hsd] at h
            exact absurd h (by simp)
          · rw [place_order_success R P N s items o' repo hnew hch hsv hsd] at h
            have ho : o' = o := by simpa using h
            subst ho
            exact (Order.new_ok_fields _ _ _ hnew).1

/-- Witness for C3 (amended): from the freshly constructed in-memory
service (counter 1 < `u32::MAX`), one successful call advances the
counter to exactly 2. -/
theorem place_order_counter_contract_witness :
    (OrderService.new InMemoryOrderRepository.new MockPaymentGateway.mk
        ConsoleSender.mk).next_id + 1 < u32Mod ∧
    ((OrderService.place_order inMemoryRepositoryPort mockPaymentPort
        consoleSenderPort
        (OrderService.new InMemoryOrderRepository.new MockPaymentGateway.mk
          ConsoleSender.mk) [testItem]).2.1).next_id =
      (OrderService.new InMemoryOrderRepository.new MockPaymentGateway.mk
        ConsoleSender.mk).next_id + 1 :=
  ⟨by norm_num [OrderService.new, u32Mod],
    (place_order_counter_contract inMemoryRepositoryPort mockPaymentPort
      consoleSenderPort
      (OrderService.new InMemoryOrderRepository.new MockPaymentGateway.mk
        ConsoleSender.mk) [testItem]).2.1
      (by norm_num [OrderService.new, u32Mod])⟩

/-- A line item of 2^31 cents - a representable `u32` price. -/
def bigItemA : LineItem := ⟨"A", ⟨2 ^ 31⟩⟩

/-- A second line item of 2^31 cents. -/
def bigItemB : LineItem := ⟨"B", ⟨2 ^ 31⟩⟩

/-- C4 counterexample: the total is not always the exact mathematical
sum.  Two items of 2^31 cents each (both representable `u32` prices)
yield an order whose `total` is 0, because the `u32` sum wraps at
2^32, while the exact sum is 2^32. -/
theorem order_total_overflow_counterexample :
    Order.new ⟨1⟩ [bigItemA, bigItemB] =
      .ok ⟨⟨1⟩, [bigItemA, bigItemB], ⟨0⟩⟩ ∧
    (0 : Nat) ≠ bigItemA.price.cents + bigItemB.price.cents := by
  constructor
  · rfl
  · norm_num [bigItemA, bigItemB]

/-- C4 (amended): for every non-empty item list, the `total` of the
order built by `Order::new` equals the exact sum of the item amounts
reduced modulo 2^32 (`u32` wrapping arithmetic, no rounding); in
particular it equals the exact mathematical sum whenever that sum is
below 2^32. -/
theorem order_total_is_sum (id : OrderId) (items : List LineItem) (o : Order)
    (hok : Order.new id items = .ok o) :
    o.total.cents = (items.map fun item => item.price.cents).sum % u32Mod ∧
    ((items.map fun item => item.price.cents).sum < u32Mod →
      o.total.cents = (items.map fun item => item.price.cents).sum) := by
  have hne : items ≠ [] := by
    intro h
    subst h
    simp [Order.new] at hok
  have hmapne : (items.map fun item => item.price.cents) ≠ [] := by
    simpa using hne
  have htot := (Order.new_ok_fields id items o hok).2.2
  have hmod : o.total.cents =
      (items.map fun item => item.price.cents).sum % u32Mod := by
    rw [htot, u32sum_eq_sum_mod _ hmapne]
  exact ⟨hmod, fun hlt => by rw [hmod, Nat.mod_eq_of_lt hlt]⟩

/-- Witness for C4 (amended): scenario 1 of the spec - the Book and
Keyboard items sum to 17998 cents, below 2^32, and the constructed
order's total is exactly 17998. -/
theorem order_total_is_sum_witness :
    (Order.new ⟨1⟩ [⟨"Rust Book", ⟨4999⟩⟩, ⟨"Keyboard", ⟨12999⟩⟩] =
      .ok ⟨⟨1⟩, [⟨"Rust Book", ⟨4999⟩⟩, ⟨"Keyboard", ⟨12999⟩⟩], ⟨17998⟩⟩) ∧
    (([⟨"Rust Book", ⟨4999⟩⟩, ⟨"Keyboard", ⟨12999⟩⟩] : List LineItem).map
        fun item => item.price.cents).sum < u32Mod ∧
    (Order.mk ⟨1⟩ [⟨"Rust Book", ⟨4999⟩⟩, ⟨"Keyboard", ⟨12999⟩⟩]
        ⟨17998⟩).total.cents =
      (([⟨"Rust Book", ⟨4999⟩⟩, ⟨"Keyboard", ⟨12999⟩⟩] : List LineItem).map
        fun item => item.price.cents).sum :=
  ⟨rfl, by norm_num [u32Mod],
    (order_total_is_sum ⟨1⟩ [⟨"Rust Book", ⟨4999⟩⟩, ⟨"Keyboard", ⟨12999⟩⟩]
      ⟨⟨1⟩, [⟨"Rust Book", ⟨4999⟩⟩, ⟨"Keyboard", ⟨12999⟩⟩], ⟨17998⟩⟩ rfl).2
      (by norm_num [u32Mod])⟩

/-- Helper: for any port family whose repository returns the order just
saved when queried at its identifier, a successful `place_order`
followed by `get_order` at the returned order's identifier yields that
very order. -/
theorem get_after_place_of_ports {ρ π σ : Type}
    (R : OrderRepository ρ) (P : PaymentGateway π) (N : Sender σ)
    (hfind : ∀ (r : ρ) (o : Order), R.find (R.save r o).2 o.id = .ok (some o))
    (s : OrderService ρ π σ) (items : List LineItem) (o : Order)
    (s' : OrderService ρ π σ) (t : List PortEvent)
    (h : OrderService.place_order R P N s items = (.ok o, s', t)) :
    OrderService.get_order R s' o.id = (.ok (some o), s', [.find o.id]) := by
  rcases hnew : Order.new ⟨s.next_id⟩ items with e | o'
  · rcases items with _ | ⟨a, l⟩
    · rw [place_order_invalid] at h
      exact absurd h (by simp)
    · simp [Order.new] at hnew
  · rcases hch : P.charge s.payment o'.total with e | u
    · rw [place_order_charge_error R P N s items o' e hnew hch] at h
      exact absurd h (by simp)
    · rcases hsv : R.save s.repository o' with ⟨res, repo⟩
      rcases res with e | u'
      · rw [place_order_save_error R P N s items o' e repo hnew hch hsv] at h
        exact absurd h (by simp)
      · rcases hsd : N.send s.sender o' with e | u''
        · rw [place_order_send_error R P N s items o' e repo hnew hch hsv hsd] at h
          exact absurd h (by simp)
        · rw [place_order_success R P N s items o' repo hnew hch hsv hsd] at h
          rw [Prod.mk.injEq, Prod.mk.injEq] at h
          obtain ⟨ho, hs, _⟩ := h
          have ho' : o' = o := by simpa using ho
          subst ho'
          subst hs
          have hrepo : (R.save s.repository o').2 = repo := by rw [hsv]
          have hf := hfind s.repository o'
          rw [hrepo] at hf
          simp [OrderService.get_order, hf]

/-- C5: with the in-memory composition (and likewise with the simulated
external composition), after a successful `place_order` returning order
`o`, a `get_order(o.id)` on the resulting service state returns
`Ok(Some(o))` - the same order in every field - leaving the state
unchanged. -/
theorem get_order_returns_placed_order :
    (∀ (s : OrderService InMemoryOrderRepository MockPaymentGateway ConsoleSender)
        (items : List LineItem) (o : Order)
        (s' : OrderService InMemoryOrderRepository MockPaymentGateway ConsoleSender)
        (t : List PortEvent),
      OrderService.place_order inMemoryRepositoryPort mockPaymentPort
          consoleSenderPort s items = (.ok o, s', t) →
      OrderService.get_order inMemoryRepositoryPort s' o.id =
        (.ok (some o), s', [.find o.id])) ∧
    (∀ (s : OrderService PostgresOrderRepository StripePaymentGateway SendGridSender)
        (items : List LineItem) (o : Order)
        (s' : OrderService PostgresOrderRepository StripePaymentGateway SendGridSender)
        (t : List PortEvent),
      OrderService.place_order postgresRepositoryPort stripePaymentPort
          sendGridSenderPort s items = (.ok o, s', t) →
      OrderService.get_order postgresRepositoryPort s' o.id =
        (.ok (some o), s', [.find o.id])) := by
  constructor
  · intro s items o s' t h
    refine get_after_place_of_ports _ _ _ ?_ s items o s' t h
    intro r oo
    simp [inMemoryRepositoryPort, InMemoryOrderRepository.save,
      InMemoryOrderRepository.find, mapGet_insert_self]
  · intro s items o s' t h
    refine get_after_place_of_ports _ _ _ ?_ s items o s' t h
    intro r oo
    simp [postgresRepositoryPort, PostgresOrderRepository.save,
      PostgresOrderRepository.find, mapGet_insert_self]

/-- Witness for C5: placing `[testItem]` on the fresh in-memory service
succeeds with `testOrder`, and `get_order 1` then returns it. -/
theorem get_order_returns_placed_order_witness :
    (OrderService.place_order inMemoryRepositoryPort mockPaymentPort
        consoleSenderPort
        (OrderService.new InMemoryOrderRepository.new MockPaymentGateway.mk
          ConsoleSender.mk) [testItem] =
      (.ok testOrder,
        { repository := ⟨[(⟨1⟩, testOrder)]⟩, payment := MockPaymentGateway.mk,
          sender := ConsoleSender.mk, next_id := 2 },
        [.charge ⟨4999⟩, .save testOrder, .send testOrder])) ∧
    OrderService.get_order inMemoryRepositoryPort
        { repository := ⟨[(⟨1⟩, testOrder)]⟩, payment := MockPaymentGateway.mk,
          sender := ConsoleSender.mk, next_id := 2 } testOrder.id =
      (.ok (some testOrder),
        { repository := ⟨[(⟨1⟩, testOrder)]⟩, payment := MockPaymentGateway.mk,
          sender := ConsoleSender.mk, next_id := 2 }, [.find testOrder.id]) :=
  ⟨rfl, get_order_returns_placed_order.1
    (OrderService.new InMemoryOrderRepository.new MockPaymentGateway.mk
      ConsoleSender.mk) [testItem] testOrder
    { repository := ⟨[(⟨1⟩, testOrder)]⟩, payment := MockPaymentGateway.mk,
      sender := ConsoleSender.mk, next_id := 2 }
    [.charge ⟨4999⟩, .save testOrder, .send testOrder] rfl⟩

/-- C6: `get_order` returns exactly what `Repository.find` returns on
the given identifier - `Ok(Some _)`, `Ok(None)` or the `StorageFailed`
error, unchanged - and its port-event trace is the single `find`
invocation: no other port runs and no value is transformed. -/
theorem get_order_delegates_to_find {ρ π σ : Type}
    (R : OrderRepository ρ) (s : OrderService ρ π σ) (id : OrderId) :
    (OrderService.get_order R s id).1 = R.find s.repository id ∧
    (OrderService.get_order R s id).2.2 = [.find id] :=
  ⟨rfl, rfl⟩

/-- A sequence of `save` calls applied to an in-memory repository
state, in order. -/
def savesFold (l : List Order) (r : InMemoryOrderRepository) :
    InMemoryOrderRepository :=
  l.foldl (fun r o => (InMemoryOrderRepository.save r o).2) r

theorem find_savesFold_not_mem (l : List Order) :
    ∀ (r : InMemoryOrderRepository) (id : OrderId), id ∉ l.map Order.id →
      InMemoryOrderRepository.find (savesFold l r) id =
        InMemoryOrderRepository.find r id := by
  induction l with
  | nil => intro r id _; rfl
  | cons o t ih =>
    intro r id h
    simp only [List.map_cons, List.mem_cons] at h
    push_neg at h
    show InMemoryOrderRepository.find
      (savesFold t (InMemoryOrderRepository.save r o).2) id = _
    rw [ih _ id h.2]
    show Except.ok (mapGet (mapInsert r.orders o.id o) id) =
      Except.ok (mapGet r.orders id)
    rw [mapGet_insert_ne r.orders o.id id o h.1]

/-- C7: an identifier never passed to `save` is found as `Ok(None)` by
the in-memory repository, never as an error - for any sequence of saves
of other orders starting from the fresh repository - and consequently
`get_order` on such an identifier, composed with that repository,
returns `Ok(None)`. -/
theorem find_unsaved_returns_none (saved : List Order) (id : OrderId)
    (h : id ∉ saved.map Order.id) :
    InMemoryOrderRepository.find (savesFold saved InMemoryOrderRepository.new)
        id = .ok none ∧
    ∀ (p : MockPaymentGateway) (n : ConsoleSender) (k : Nat),
      (OrderService.get_order inMemoryRepositoryPort
        { repository := savesFold saved InMemoryOrderRepository.new,
          payment := p, sender := n, next_id := k } id).1 = .ok none := by
  have hf : InMemoryOrderRepository.find
      (savesFold saved InMemoryOrderRepository.new) id = .ok none := by
    rw [find_savesFold_not_mem saved _ id h]
    rfl
  exact ⟨hf, fun p n k => hf⟩

/-- Witness for C7 (spec §8 scenario 4): with only `testOrder` (id 1)
saved, identifier 99 was never saved and `find` returns `Ok(None)`. -/
theorem find_unsaved_returns_none_witness :
    (⟨99⟩ : OrderId) ∉ [testOrder].map Order.id ∧
    InMemoryOrderRepository.find
        (savesFold [testOrder] InMemoryOrderRepository.new) ⟨99⟩ = .ok none :=
  ⟨by decide, (find_unsaved_returns_none [testOrder] ⟨99⟩ (by decide)).1⟩

/-- Helper: when every port always answers `Ok`, `place_order` succeeds
on every non-empty item list, and the only error it can ever return is
`InvalidOrder`. -/
theorem place_order_with_ok_ports {ρ π σ : Type}
    (R : OrderRepository ρ) (P : PaymentGateway π) (N : Sender σ)
    (hch : ∀ p m, P.charge p m = .ok ())
    (hsv : ∀ r o, (R.save r o).1 = .ok ())
    (hsd : ∀ n o, N.send n o = .ok ())
    (s : OrderService ρ π σ) (items : List LineItem) :
    (items ≠ [] →
      ∃ o, (OrderService.place_order R P N s items).1 = .ok o) ∧
    (∀ e, (OrderService.place_order R P N s items).1 = .error e →
      e = .InvalidOrder) := by
  have hmain : ∀ (a : LineItem) (l : List LineItem),
      (OrderService.place_order R P N s (a :: l)).1 =
        .ok ⟨⟨s.next_id⟩, a :: l,
          ⟨u32sum ((a :: l).map fun item => item.price.cents)⟩⟩ := by
    intro a l
    have hnew : Order.new ⟨s.next_id⟩ (a :: l) =
        .ok ⟨⟨s.next_id⟩, a :: l,
          ⟨u32sum ((a :: l).map fun item => item.price.cents)⟩⟩ := by
      simp [Order.new]
    have hsv' : R.save s.repository
        ⟨⟨s.next_id⟩, a :: l,
          ⟨u32sum ((a :: l).map fun item => item.price.cents)⟩⟩ =
        (.ok (), (R.save s.repository
          ⟨⟨s.next_id⟩, a :: l,
            ⟨u32sum ((a :: l).map fun item => item.price.cents)⟩⟩).2) :=
      Prod.ext (hsv _ _) rfl
    rw [place_order_success R P N s (a :: l) _ _ hnew (hch _ _) hsv' (hsd _ _)]
  constructor
  · intro hne
    cases items with
    | nil => exact absurd rfl hne
    | cons a l => exact ⟨_, hmain a l⟩
  · intro e he
    cases items with
    | nil =>
      rw [place_order_invalid] at he
      simpa using he.symm
    | cons a l =>
      rw [hmain a l] at he
      exact absurd he (by simp)

/-- C8: every adapter in the repository (in-memory set and simulated
external set) answers `Ok` on every call, so with either composition
`place_order` on a non-empty item list always succeeds, the only error
`place_order` can return is `InvalidOrder` (the `PaymentFailed`,
`StorageFailed` and `NotificationFailed` branches are unreachable), and
`get_order` always returns `Ok`. -/
theorem adapters_never_fail :
    (∀ (s : OrderService InMemoryOrderRepository MockPaymentGateway ConsoleSender)
        (items : List LineItem),
      (items ≠ [] →
        ∃ o, (OrderService.place_order inMemoryRepositoryPort mockPaymentPort
          consoleSenderPort s items).1 = .ok o) ∧
      (∀ e, (OrderService.place_order inMemoryRepositoryPort mockPaymentPort
          consoleSenderPort s items).1 = .error e → e = .InvalidOrder)) ∧
    (∀ (s : OrderService InMemoryOrderRepository MockPaymentGateway ConsoleSender)
        (id : OrderId),
      (OrderService.get_order inMemoryRepositoryPort s id).1 =
        .ok (mapGet s.repository.orders id)) ∧
    (∀ (s : OrderService PostgresOrderRepository StripePaymentGateway SendGridSender)
        (items : List LineItem),
      (items ≠ [] →
        ∃ o, (OrderService.place_order postgresRepositoryPort stripePaymentPort
          sendGridSenderPort s items).1 = .ok o) ∧
      (∀ e, (OrderService.place_order postgresRepositoryPort stripePaymentPort
          sendGridSenderPort s items).1 = .error e → e = .InvalidOrder)) ∧
    (∀ (s : OrderService PostgresOrderRepository StripePaymentGateway SendGridSender)
        (id : OrderId),
      (OrderService.get_order postgresRepositoryPort s id).1 =
        .ok (mapGet s.repository.simulated_db id)) := by
  refine ⟨fun s items => ?_, fun s id => rfl, fun s items => ?_, fun s id => rfl⟩
  · exact place_order_with_ok_ports _ _ _ (fun p m => rfl) (fun r o => rfl)
      (fun n o => rfl) s items
  · exact place_order_with_ok_ports _ _ _ (fun p m => rfl) (fun r o => rfl)
      (fun n o => rfl) s items

/-- Witness for C8: on the fresh in-memory service, placing the
non-empty list `[testItem]` succeeds. -/
theorem adapters_never_fail_witness :
    ([testItem] : List LineItem) ≠ [] ∧
    ∃ o, (OrderService.place_order inMemoryRepositoryPort mockPaymentPort
      consoleSenderPort
      (OrderService.new InMemoryOrderRepository.new MockPaymentGateway.mk
        ConsoleSender.mk) [testItem]).1 = .ok o :=
  ⟨by simp,
    (adapters_never_fail.1
      (OrderService.new InMemoryOrderRepository.new MockPaymentGateway.mk
        ConsoleSender.mk) [testItem]).1 (by simp)⟩

/-- C9: `get_order` modifies no state: the threaded service state comes
back exactly as it was (the Rust receiver is `&self` and `find` also
takes `&self`), so in particular the identifier counter and, with the
in-memory composition, the repository's stored order map are unchanged
by any `get_order` call. -/
theorem get_order_modifies_nothing :
    (∀ (ρ π σ : Type) (R : OrderRepository ρ) (s : OrderService ρ π σ)
        (id : OrderId), (OrderService.get_order R s id).2.1 = s) ∧
    (∀ (s : OrderService InMemoryOrderRepository MockPaymentGateway ConsoleSender)
        (id : OrderId),
      ((OrderService.get_order inMemoryRepositoryPort s id).2.1).next_id =
        s.next_id ∧
      ((OrderService.get_order inMemoryRepositoryPort s id).2.1).repository.orders =
        s.repository.orders) :=
  ⟨fun _ _ _ _ _ _ => rfl, fun _ _ => ⟨rfl, rfl⟩⟩

/-- One `place_order` call viewed as a state transformer. -/
def stepService {ρ π σ : Type}
    (R : OrderRepository ρ) (P : PaymentGateway π) (N : Sender σ)
    (items : List LineItem) (s : OrderService ρ π σ) : OrderService ρ π σ :=
  (OrderService.place_order R P N s items).2.1

/-- The service state after `k` successive `place_order` calls. -/
def serviceAfterCalls {ρ π σ : Type}
    (R : OrderRepository ρ) (P : PaymentGateway π) (N : Sender σ)
    (items : List LineItem) (s : OrderService ρ π σ) : Nat → OrderService ρ π σ
  | 0 => s
  | k + 1 => stepService R P N items (serviceAfterCalls R P N items s k)

/-- The identifier value allocated to the `m`-th `place_order` call
(1-indexed): the counter's value just before that call. -/
def allocatedId {ρ π σ : Type}
    (R : OrderRepository ρ) (P : PaymentGateway π) (N : Sender σ)
    (items : List LineItem) (s : OrderService ρ π σ) (m : Nat) : Nat :=
  (serviceAfterCalls R P N items s (m - 1)).next_id

theorem serviceAfterCalls_next_id {ρ π σ : Type}
    (R : OrderRepository ρ) (P : PaymentGateway π) (N : Sender σ)
    (items : List LineItem) (r : ρ) (p : π) (n : σ) :
    ∀ k, (serviceAfterCalls R P N items (OrderService.new r p n) k).next_id =
      (1 + k) % u32Mod := by
  intro k
  induction k with
  | zero =>
    show (1 : Nat) = (1 + 0) % u32Mod
    norm_num [u32Mod]
  | succ k ih =>
    show (stepService R P N items
      (serviceAfterCalls R P N items (OrderService.new r p n) k)).next_id = _
    unfold stepService
    rw [place_order_next_id, ih, Nat.mod_add_mod]
    have harith : 1 + k + 1 = 1 + (k + 1) := by omega
    rw [harith]

/-- C10: the identifier counter is `u32`-sized and its per-call advance
is addition of 1 modulo 2^32: starting from the seeded service, after
`k` calls the counter is `(1 + k) % 2^32` and always below 2^32; the
identifiers allocated to the first 2^32 - 1 calls are strictly
increasing (hence unique); and past `u32::MAX` the counter wraps, so
the identifier of call 2^32 + 1 repeats that of call 1. -/
theorem counter_is_u32_wrapping {ρ π σ : Type}
    (R : OrderRepository ρ) (P : PaymentGateway π) (N : Sender σ)
    (items : List LineItem) (r : ρ) (p : π) (n : σ) :
    (∀ k, (serviceAfterCalls R P N items (OrderService.new r p n) k).next_id =
      (1 + k) % u32Mod) ∧
    (∀ k, (serviceAfterCalls R P N items (OrderService.new r p n) k).next_id <
      u32Mod) ∧
    (∀ j k, 0 < j → j < k → k ≤ u32Mod - 1 →
      allocatedId R P N items (OrderService.new r p n) j <
        allocatedId R P N items (OrderService.new r p n) k) ∧
    allocatedId R P N items (OrderService.new r p n) (u32Mod + 1) =
      allocatedId R P N items (OrderService.new r p n) 1 := by
  have hM : u32Mod = 4294967296 := by norm_num [u32Mod]
  refine ⟨serviceAfterCalls_next_id R P N items r p n, fun k => ?_, ?_, ?_⟩
  · rw [serviceAfterCalls_next_id R P N items r p n k]
    exact Nat.mod_lt _ (by omega)
  · intro j k hj hjk hk
    unfold allocatedId
    rw [serviceAfterCalls_next_id R P N items r p n,
      serviceAfterCalls_next_id R P N items r p n]
    have h1 : 1 + (j - 1) = j := by omega
    have h2 : 1 + (k - 1) = k := by omega
    rw [h1, h2, Nat.mod_eq_of_lt (by omega), Nat.mod_eq_of_lt (by omega)]
    exact hjk
  · unfold allocatedId
    rw [serviceAfterCalls_next_id R P N items r p n,
      serviceAfterCalls_next_id R P N items r p n]
    simp only [hM]

/-- Witness for C10: with the in-memory composition, the identifiers of
calls 1 and 2 are strictly increasing. -/
theorem counter_is_u32_wrapping_witness :
    ((0 : Nat) < 1 ∧ (1 : Nat) < 2 ∧ (2 : Nat) ≤ u32Mod - 1) ∧
    allocatedId inMemoryRepositoryPort mockPaymentPort consoleSenderPort
        [testItem]
        (OrderService.new InMemoryOrderRepository.new MockPaymentGateway.mk
          ConsoleSender.mk) 1 <
      allocatedId inMemoryRepositoryPort mockPaymentPort consoleSenderPort
        [testItem]
        (OrderService.new InMemoryOrderRepository.new MockPaymentGateway.mk
          ConsoleSender.mk) 2 :=
  ⟨⟨by norm_num, by norm_num, by norm_num [u32Mod]⟩,
    (counter_is_u32_wrapping inMemoryRepositoryPort mockPaymentPort
      consoleSenderPort [testItem] InMemoryOrderRepository.new
      MockPaymentGateway.mk ConsoleSender.mk).2.2.1 1 2 (by norm_num)
      (by norm_num) (by norm_num [u32Mod])⟩

end HexagonalLite
